import Mathlib

/-!
Formal model of the Higgsfield proxy backend (`src/app.py` and
`src/routers/{text_to_image,image_to_video,text_to_video}.py`):
the URL-extraction heuristics over job-set JSON payloads, the
submit/poll/resolve loop, job-id extraction from submission responses,
and byte-streaming response assembly.

JSON values are an inductive type; Python's dynamic failures (calling
`.get` on a non-dict, iterating a non-iterable) are modelled in an
exception monad `Except PyErr`.  Numbers are modelled as integers, which
suffices for every property considered here.  Python `or` is modelled
with its short-circuit semantics, `int(x)` as truncation toward zero.
-/

inductive Json where
  | null
  | bool (b : Bool)
  | num (n : Int)
  | str (s : String)
  | arr (items : List Json)
  | obj (fields : List (String × Json))

inductive PyErr where
  | attributeError
  | typeError
deriving DecidableEq

/-- Python `d.get(k)` on dict contents: the bound value, `None`
(modelled as `Json.null`) when the key is absent. -/
def jGet (kvs : List (String × Json)) (k : String) : Json :=
  match kvs.find? (fun kv => kv.1 == k) with
  | some kv => kv.2
  | none => .null

/-- Python `d.get(k, dflt)` on dict contents: defaults only when the key
is absent. -/
def jGetD (kvs : List (String × Json)) (k : String) (dflt : Json) : Json :=
  match kvs.find? (fun kv => kv.1 == k) with
  | some kv => kv.2
  | none => dflt

/-- Python truthiness of a JSON value. -/
def truthy : Json → Bool
  | .null => false
  | .bool b => b
  | .num n => n != 0
  | .str s => s != ""
  | .arr items => !items.isEmpty
  | .obj fields => !fields.isEmpty

def isObj : Json → Bool
  | .obj _ => true
  | _ => false

/-- Python `x.get(k)`: AttributeError unless `x` is a dict. -/
def pyGet (v : Json) (k : String) : Except PyErr Json :=
  match v with
  | .obj kvs => .ok (jGet kvs k)
  | _ => .error .attributeError

/-- Python `x.get(k, dflt)`: AttributeError unless `x` is a dict. -/
def pyGetD (v : Json) (k : String) (dflt : Json) : Except PyErr Json :=
  match v with
  | .obj kvs => .ok (jGetD kvs k dflt)
  | _ => .error .attributeError

/-- Python `for x in v`: lists yield their items, strings their
1-character substrings, dicts their keys; other values raise TypeError. -/
def pyIter : Json → Except PyErr (List Json)
  | .arr items => .ok items
  | .str s => .ok (s.data.map fun c => .str (String.mk [c]))
  | .obj kvs => .ok (kvs.map fun kv => .str kv.1)
  | _ => .error .typeError

/-- Python `(res.get(k) or {}).get("url")`: raises AttributeError exactly
when `res[k]` is truthy and not a dict. -/
def orGetUrl (kvs : List (String × Json)) (k : String) : Except PyErr Json :=
  match (if truthy (jGet kvs k) then jGet kvs k else Json.obj []) with
  | .obj inner => .ok (jGet inner "url")
  | _ => .error .attributeError

/-- Python `s.startswith(p)` (executable form over character lists). -/
def strStartsWith (s p : String) : Bool := p.data.isPrefixOf s.data

/-- Python `s.endswith(p)` (executable form over character lists). -/
def strEndsWith (s p : String) : Bool := p.data.isSuffixOf s.data

/-- Python `s.lower()`. -/
def strToLower (s : String) : String := String.mk (s.data.map Char.toLower)

/-! ## Text-to-image extractor

`_pick_image_url` from `src/routers/text_to_image.py` (the identical
function also appears in `src/app.py`). -/

/-- The dict-branch expression of `_pick_image_url`:
`(res.get("raw") or {}).get("url") or (res.get("min") or {}).get("url")
or res.get("url")`, with Python `or` short-circuiting. -/
def imgUrlChain (kvs : List (String × Json)) : Except PyErr Json :=
  match orGetUrl kvs "raw" with
  | .error e => .error e
  | .ok a =>
    if truthy a then .ok a
    else
      match orGetUrl kvs "min" with
      | .error e => .error e
      | .ok b => if truthy b then .ok b else .ok (jGet kvs "url")

/-- The inner `for item in res` loop of `_pick_image_url`'s list branch;
items are not isinstance-guarded, so a non-dict item raises. -/
def imgItemsLoop : List Json → Except PyErr (Option Json)
  | [] => .ok none
  | item :: rest =>
    match item with
    | .obj kvs =>
      match imgUrlChain kvs with
      | .error e => .error e
      | .ok url => if truthy url then .ok (some url) else imgItemsLoop rest
    | _ => .error .attributeError

/-- The `for j in data.get("jobs", [])` loop of `_pick_image_url`.  In the
dict branch the computed value is returned unconditionally (even when it
is `None`). -/
def imgJobsLoop : List Json → Except PyErr Json
  | [] => .ok .null
  | j :: rest =>
    match j with
    | .obj jk =>
      match truthy (jGet jk "results"), jGet jk "results" with
      | false, _ => imgJobsLoop rest
      | true, .obj rk => imgUrlChain rk
      | true, .arr items =>
        match imgItemsLoop items with
        | .error e => .error e
        | .ok (some u) => .ok u
        | .ok none => imgJobsLoop rest
      | true, _ => imgJobsLoop rest
    | _ => .error .attributeError

/-- `_pick_image_url(data)`; `Json.null` models returning `None`. -/
def pick_image_url (data : Json) : Except PyErr Json :=
  match pyGetD data "jobs" (.arr []) with
  | .error e => .error e
  | .ok jv =>
    match pyIter jv with
    | .error e => .error e
    | .ok js => imgJobsLoop js

/-! ## Image-to-video extractor

`_pick_video_url` and its inner `from_obj` from
`src/routers/image_to_video.py`. -/

/-- One step of `from_obj`'s first loop (`for key in ("url","mp4","video")`):
a flat string hit, or a dict with an `url` string, both requiring an
`http` scheme. -/
def directHit (kvs : List (String × Json)) (k : String) : Option String :=
  match jGet kvs k with
  | .str v => if strStartsWith v "http" then some v else none
  | .obj inner =>
    match jGet inner "url" with
    | .str u => if strStartsWith u "http" then some u else none
    | _ => none
  | _ => none

/-- One step of `from_obj`'s second loop
(`for nested in ("raw","min","high","low")`). -/
def nestedHit (kvs : List (String × Json)) (k : String) : Option String :=
  match jGet kvs k with
  | .obj inner =>
    match jGet inner "url" with
    | .str u => if strStartsWith u "http" then some u else none
    | _ => none
  | _ => none

/-- `from_obj` on the contents of a dict (`from_obj` raises only when its
argument is not a dict; on a dict every lookup is isinstance-guarded). -/
def fromObjDict (kvs : List (String × Json)) : Option String :=
  match ["url", "mp4", "video"].findSome? (directHit kvs) with
  | some u => some u
  | none => ["raw", "min", "high", "low"].findSome? (nestedHit kvs)

/-- `from_obj` from `src/routers/image_to_video.py`. -/
def from_obj : Json → Except PyErr (Option String)
  | .obj kvs => .ok (fromObjDict kvs)
  | _ => .error .attributeError

/-- The `for item in top` / `for item in res` loops of the image-to-video
`_pick_video_url`; items are isinstance-guarded. -/
def itvItemsLoop : List Json → Option String
  | [] => none
  | .obj kvs :: rest =>
    match fromObjDict kvs with
    | some u => some u
    | none => itvItemsLoop rest
  | _ :: rest => itvItemsLoop rest

/-- The `for j in data.get("jobs", [])` loop of the image-to-video
`_pick_video_url`. -/
def itvJobsLoop : List Json → Except PyErr (Option String)
  | [] => .ok none
  | j :: rest =>
    match j with
    | .obj jk =>
      match truthy (jGet jk "results"), jGet jk "results" with
      | false, _ => itvJobsLoop rest
      | true, .obj rk =>
        match fromObjDict rk with
        | some u => .ok (some u)
        | none => itvJobsLoop rest
      | true, .arr items =>
        match itvItemsLoop items with
        | some u => .ok (some u)
        | none => itvJobsLoop rest
      | true, _ => itvJobsLoop rest
    | _ => .error .attributeError

/-- The per-job half of the image-to-video `_pick_video_url`. -/
def itvJobs (kvs : List (String × Json)) : Except PyErr (Option String) :=
  match pyIter (jGetD kvs "jobs" (.arr [])) with
  | .error e => .error e
  | .ok js => itvJobsLoop js

/-- `_pick_video_url` from `src/routers/image_to_video.py`: the top-level
`results` field is examined first, then per-job `results`. -/
def pick_video_url_itv (data : Json) : Except PyErr (Option String) :=
  match data with
  | .obj kvs =>
    match jGet kvs "results" with
    | .obj rk =>
      match fromObjDict rk with
      | some u => .ok (some u)
      | none => itvJobs kvs
    | .arr items =>
      match itvItemsLoop items with
      | some u => .ok (some u)
      | none => itvJobs kvs
    | _ => itvJobs kvs
  | _ => .error .attributeError

/-! ## Text-to-video extractor

`_pick_video_url` and its inner `from_results` from
`src/routers/text_to_video.py`. -/

/-- `any(u.lower().endswith(ext) for ext in (".mp4",".webm",".mov",".m4v"))`. -/
def hasVideoExt (u : String) : Bool :=
  [".mp4", ".webm", ".mov", ".m4v"].any fun e => strEndsWith (strToLower u) e

/-- The `for u in candidates` loop of `from_results`: the first string
candidate with an `http` scheme and a known video extension. -/
def candScan : List Json → Option String
  | [] => none
  | .str u :: rest =>
    if strStartsWith u "http" && hasVideoExt u then some u else candScan rest
  | _ :: rest => candScan rest

/-- The `for v in res.values()` fallback of `from_results`: the first
string value with an `http` scheme. -/
def valuesScan : List (String × Json) → Option String
  | [] => none
  | (_, .str v) :: rest => if strStartsWith v "http" then some v else valuesScan rest
  | _ :: rest => valuesScan rest

/-- `from_results` on the contents of a dict.  Building the candidate
list evaluates the three `(res.get(k) or {}).get("url")` expressions in
order (`video`, `raw`, `min`), each of which can raise. -/
def from_results (kvs : List (String × Json)) : Except PyErr (Option String) :=
  match orGetUrl kvs "video" with
  | .error e => .error e
  | .ok c1 =>
    match orGetUrl kvs "raw" with
    | .error e => .error e
    | .ok c3 =>
      match orGetUrl kvs "min" with
      | .error e => .error e
      | .ok c4 =>
        match candScan [c1, jGet kvs "video_url", c3, c4, jGet kvs "url"] with
        | some u => .ok (some u)
        | none => .ok (valuesScan kvs)

/-- The `for item in res` loop of the text-to-video `_pick_video_url`;
items are isinstance-guarded. -/
def t2vItemsLoop : List Json → Except PyErr (Option String)
  | [] => .ok none
  | .obj kvs :: rest =>
    (match from_results kvs with
     | .error e => .error e
     | .ok (some u) => .ok (some u)
     | .ok none => t2vItemsLoop rest)
  | _ :: rest => t2vItemsLoop rest

/-- The `for j in data.get("jobs", [])` loop of the text-to-video
`_pick_video_url`. -/
def t2vJobsLoop : List Json → Except PyErr (Option String)
  | [] => .ok none
  | j :: rest =>
    match j with
    | .obj jk =>
      match truthy (jGet jk "results"), jGet jk "results" with
      | false, _ => t2vJobsLoop rest
      | true, .obj rk =>
        match from_results rk with
        | .error e => .error e
        | .ok (some u) => .ok (some u)
        | .ok none => t2vJobsLoop rest
      | true, .arr items =>
        match t2vItemsLoop items with
        | .error e => .error e
        | .ok (some u) => .ok (some u)
        | .ok none => t2vJobsLoop rest
      | true, _ => t2vJobsLoop rest
    | _ => .error .attributeError

/-- `_pick_video_url` from `src/routers/text_to_video.py` (per-job
`results` only, no top-level `results` scan). -/
def pick_video_url_t2v (data : Json) : Except PyErr (Option String) :=
  match pyGetD data "jobs" (.arr []) with
  | .error e => .error e
  | .ok jv =>
    match pyIter jv with
    | .error e => .error e
    | .ok js => t2vJobsLoop js

/-! ## The poll loop

`_poll_image_url` (`src/routers/text_to_image.py` lines 85-115) and both
`_poll_video_url`s (`src/routers/text_to_video.py` lines 115-145,
`src/routers/image_to_video.py` lines 116-147) share one loop body
verbatim, differing only in the extractor used; it is modelled once,
parametrised by the extractor.  `snaps k` is the parsed JSON body of the
k-th successful status fetch. -/

/-- Python `status in {"failed", "error"}`. -/
def statusFailed : Json → Bool
  | .str s => s == "failed" || s == "error"
  | _ => false

/-- Whether a per-job entry reports failure (`j.get("status") in
{"failed","error"}` for a dict entry). -/
def jobFailed : Json → Bool
  | .obj jk => statusFailed (jGet jk "status")
  | _ => false

/-- The failure scan of one poll iteration over the job entries:
`for j in ...: if j.get("status") in {"failed","error"}: raise
HTTPException(502, j.get("error") or "Generation failed")`.
`some d` models raising with detail `d`. -/
def failScanList : List Json → Except PyErr (Option Json)
  | [] => .ok none
  | j :: rest =>
    match j with
    | .obj jk =>
      if statusFailed (jGet jk "status") then
        .ok (some (if truthy (jGet jk "error") then jGet jk "error"
                   else .str "Generation failed"))
      else failScanList rest
    | _ => .error .attributeError

/-- The failure scan applied to a snapshot, iterating
`data.get("jobs", [])`. -/
def failScan (data : Json) : Except PyErr (Option Json) :=
  match pyGetD data "jobs" (.arr []) with
  | .error e => .error e
  | .ok jv =>
    match pyIter jv with
    | .error e => .error e
    | .ok js => failScanList js

/-- Terminal outcome of the poll loop: an extracted (truthy) value, an
HTTPException(502) with its detail, a propagated Python-level error, or
`None` after the attempt budget is exhausted. -/
inductive PollOutcome where
  | ready (u : Json)
  | upstreamFail (detail : Json)
  | pyError (e : PyErr)
  | notReady

/-- Outcome of a poll run together with the number of status fetches
performed and the number of sleeps executed. -/
structure PollTrace where
  outcome : PollOutcome
  fetches : Nat
  sleeps : Nat

/-- The shared poll loop: `for _ in range(attempts): fetch; extract;
return on truthy value; scan for failed jobs; sleep`.  The first `Nat`
argument is the remaining attempt count, the second the index of the
next snapshot. -/
def poll_loop (pick : Json → Except PyErr Json) (snaps : Nat → Json) :
    Nat → Nat → PollTrace
  | 0, _ => ⟨.notReady, 0, 0⟩
  | n + 1, i =>
    match pick (snaps i) with
    | .error e => ⟨.pyError e, 1, 0⟩
    | .ok u =>
      if truthy u then ⟨.ready u, 1, 0⟩
      else
        match failScan (snaps i) with
        | .error e => ⟨.pyError e, 1, 0⟩
        | .ok (some d) => ⟨.upstreamFail d, 1, 0⟩
        | .ok none =>
          let t := poll_loop pick snaps n (i + 1)
          ⟨t.outcome, t.fetches + 1, t.sleeps + 1⟩

/-- `Option String`-valued extractors as used inside the poll loop
(`if vid_url:` sees the Python value, `None` for no match). -/
def optJson : Option String → Json
  | some u => .str u
  | none => .null

/-- `_pick_video_url` (image-to-video) as a poll-loop extractor. -/
def pickItvJ (d : Json) : Except PyErr Json := (pick_video_url_itv d).map optJson

/-- `_pick_video_url` (text-to-video) as a poll-loop extractor. -/
def pickT2vJ (d : Json) : Except PyErr Json := (pick_video_url_t2v d).map optJson

/-- Python `int(q)` on a rational: truncation toward zero. -/
def pyTrunc (q : ℚ) : ℤ := if 0 ≤ q then ⌊q⌋ else -⌊-q⌋

/-- `attempts = max(1, int(timeout / interval))` as computed by every
poll loop in the repository. -/
def attemptsOf (timeout : ℤ) (interval : ℚ) : ℤ :=
  max 1 (pyTrunc ((timeout : ℚ) / interval))

/-- Extractor behaviour of one non-terminal iteration: extraction
returned normally with a falsy value. -/
def pendingPick (pick : Json → Except PyErr Json) (d : Json) : Bool :=
  match pick d with
  | .ok u => !truthy u
  | .error _ => false

/-! ## Job-id extraction from the submission response -/

/-- Outcome of the post-submission id check: a job handle, or the
`HTTPException(502, "No job_set id in response")` path. -/
inductive SubmitOutcome where
  | handle (id : Json)
  | badGateway

/-- `job_set_id = job_set.get("id")`, then 502 when falsy — the
text-to-image routes (`generate_image`, `generate_image_bytes`). -/
def submit_id_t2i (job_set : Json) : Except PyErr SubmitOutcome :=
  match pyGet job_set "id" with
  | .error e => .error e
  | .ok i => .ok (if truthy i then .handle i else .badGateway)

/-- `job_set_id = job_set.get("id") or (job_set.get("data") or {}).get("id")`,
then 502 when falsy — the image-to-video and text-to-video routes
(`generate_itv`, `generate_itv_bytes`, `generate_video`), with Python
`or` short-circuiting. -/
def submit_id_nested (job_set : Json) : Except PyErr SubmitOutcome :=
  match pyGet job_set "id" with
  | .error e => .error e
  | .ok a =>
    if truthy a then .ok (.handle a)
    else
      match pyGet job_set "data" with
      | .error e => .error e
      | .ok d =>
        match (if truthy d then d else Json.obj []) with
        | .obj inner =>
          .ok (if truthy (jGet inner "id") then .handle (jGet inner "id")
               else .badGateway)
        | _ => .error .attributeError

/-! ## Byte-streaming response assembly -/

/-- The `StreamingResponse` built by the byte-streaming endpoints: the
full fetched body, the chosen media type, and the two fixed headers. -/
structure StreamedResponse where
  body : List Nat
  mediaType : String
  cacheControl : String
  contentDisposition : String

/-- `media = img_res.headers.get("content-type", "image/jpeg")` —
`generate_image_bytes` (`src/routers/text_to_image.py` line 285). -/
def imageMediaType (ct : Option String) : String :=
  match ct with
  | some s => s
  | none => "image/jpeg"

/-- `media = proxied.headers.get("content-type") or "video/mp4"` followed
by `media if media.startswith("video/") else "video/mp4"` —
`generate_video` and `generate_itv_bytes`. -/
def videoMediaType (ct : Option String) : String :=
  let media := match ct with
    | some s => if s != "" then s else "video/mp4"
    | none => "video/mp4"
  if strStartsWith media "video/" then media else "video/mp4"

/-- The image byte-streaming response (`src/routers/text_to_image.py`
lines 286-293). -/
def buildImageBytesResponse (content : List Nat) (ct : Option String) :
    StreamedResponse :=
  { body := content
    mediaType := imageMediaType ct
    cacheControl := "public, max-age=31536000"
    contentDisposition := "inline; filename=\"generated-image\"" }

/-- The video byte-streaming response (`src/routers/text_to_video.py`
lines 279-286, `src/routers/image_to_video.py` lines 307-314). -/
def buildVideoBytesResponse (content : List Nat) (ct : Option String) :
    StreamedResponse :=
  { body := content
    mediaType := videoMediaType ct
    cacheControl := "public, max-age=31536000"
    contentDisposition := "inline; filename=\"generated-video\"" }

/-! ## Well-shapedness

Sufficient shape conditions under which each extractor is exception-free:
every value the code calls `.get` on is a dict (or falsy, replaced by
`{}`), and every value it iterates is a list of dicts where unguarded. -/

/-- A value on which `(... or {}).get("url")` cannot raise: falsy or a
dict. -/
def okVal (v : Json) : Bool := !truthy v || isObj v

/-- Results-dict shape under which the text-to-image or-chain is safe. -/
def wfResObjImg (kvs : List (String × Json)) : Bool :=
  okVal (jGet kvs "raw") && okVal (jGet kvs "min")

/-- Shape of a per-job `results` value that the text-to-image extractor
handles without raising. -/
def wfResImg : Json → Bool
  | .obj rk => wfResObjImg rk
  | .arr items =>
    items.all fun it =>
      match it with
      | .obj k => wfResObjImg k
      | _ => false
  | _ => true

def wfJobImg : Json → Bool
  | .obj jk => wfResImg (jGet jk "results")
  | _ => false

/-- Snapshots on which `_pick_image_url` cannot raise. -/
def wfDataImg : Json → Bool
  | .obj kvs =>
    match jGetD kvs "jobs" (.arr []) with
    | .arr js => js.all wfJobImg
    | _ => false
  | _ => false

/-- Snapshots on which the image-to-video `_pick_video_url` cannot raise
(its result-object walks are fully isinstance-guarded, so only the job
entries themselves must be dicts). -/
def wfDataItv : Json → Bool
  | .obj kvs =>
    match jGetD kvs "jobs" (.arr []) with
    | .arr js => js.all isObj
    | _ => false
  | _ => false

/-- Results-dict shape under which `from_results` is safe. -/
def wfResObjT2v (kvs : List (String × Json)) : Bool :=
  okVal (jGet kvs "video") && okVal (jGet kvs "raw") && okVal (jGet kvs "min")

/-- Shape of a per-job `results` value that the text-to-video extractor
handles without raising (list items are isinstance-guarded, so non-dict
items are skipped). -/
def wfResT2v : Json → Bool
  | .obj rk => wfResObjT2v rk
  | .arr items =>
    items.all fun it =>
      match it with
      | .obj k => wfResObjT2v k
      | _ => true
  | _ => true

def wfJobT2v : Json → Bool
  | .obj jk => wfResT2v (jGet jk "results")
  | _ => false

/-- Snapshots on which the text-to-video `_pick_video_url` cannot raise. -/
def wfDataT2v : Json → Bool
  | .obj kvs =>
    match jGetD kvs "jobs" (.arr []) with
    | .arr js => js.all wfJobT2v
    | _ => false
  | _ => false

def exOk {α : Type} : Except PyErr α → Bool
  | .ok _ => true
  | .error _ => false

/-- The job entries of a snapshot, when `data.get("jobs", [])` yields a
list. -/
def jobsList : Json → Option (List Json)
  | .obj kvs =>
    match jGetD kvs "jobs" (.arr []) with
    | .arr js => some js
    | _ => none
  | _ => none

/-! ## Concrete example payloads used by witnesses -/

/-- A snapshot whose only job failed and carries no result URL. -/
def failSnap : Json :=
  .obj [("jobs", .arr [.obj [("status", .str "failed"), ("error", .str "boom")]])]

/-- A snapshot whose only job is still pending: no result URL, no failure
tag. -/
def pendSnap : Json :=
  .obj [("jobs", .arr [.obj [("status", .str "queued")]])]

/-- A snapshot containing both an extractable result URL and a failed
job. -/
def bothSnap : Json :=
  .obj [("jobs", .arr [.obj [("status", .str "failed"),
    ("results", .obj [("raw", .obj [("url", .str "https://a/img.png")])])]])]

/-- A well-shaped snapshot (jobs are dicts, nested result fields are
dicts). -/
def wfEx : Json :=
  .obj [("jobs", .arr [.obj [("results",
    .obj [("min", .obj [("url", .str "https://a/u.png")])])]])]

/-! ## Helper lemmas -/

theorem orGetUrl_ok_of_okVal {kvs : List (String × Json)} {k : String}
    (h : okVal (jGet kvs k) = true) : ∃ v, orGetUrl kvs k = .ok v := by
  unfold orGetUrl
  cases ht : truthy (jGet kvs k) with
  | false => simp [ht]
  | true =>
    simp [okVal, ht] at h
    simp [ht]
    cases hv : jGet kvs k with
    | obj fields => simp
    | _ => rw [hv] at h; simp [isObj] at h

theorem imgUrlChain_ok_of_wf {kvs : List (String × Json)}
    (h : wfResObjImg kvs = true) : ∃ v, imgUrlChain kvs = .ok v := by
  simp [wfResObjImg] at h
  obtain ⟨a, ha⟩ := orGetUrl_ok_of_okVal h.1
  obtain ⟨b, hb⟩ := orGetUrl_ok_of_okVal h.2
  unfold imgUrlChain
  rw [ha]
  cases hta : truthy a
  · rw [hb]
    cases htb : truthy b <;> simp [hta, htb]
  · simp [hta]

theorem exOk_iff {α : Type} {x : Except PyErr α} :
    exOk x = true ↔ ∃ v, x = .ok v := by
  cases x <;> simp [exOk]

theorem imgItemsLoop_cons_obj (kvs : List (String × Json)) (rest : List Json) :
    imgItemsLoop (.obj kvs :: rest) =
      match imgUrlChain kvs with
      | .error e => .error e
      | .ok url => if truthy url then .ok (some url) else imgItemsLoop rest := rfl

theorem imgJobsLoop_cons_obj (jk : List (String × Json)) (rest : List Json) :
    imgJobsLoop (.obj jk :: rest) =
      match truthy (jGet jk "results"), jGet jk "results" with
      | false, _ => imgJobsLoop rest
      | true, .obj rk => imgUrlChain rk
      | true, .arr items =>
        match imgItemsLoop items with
        | .error e => .error e
        | .ok (some u) => .ok u
        | .ok none => imgJobsLoop rest
      | true, _ => imgJobsLoop rest := rfl

theorem imgItemsLoop_exOk {items : List Json}
    (h : (items.all fun it =>
      match it with
      | Json.obj k => wfResObjImg k
      | _ => false) = true) : exOk (imgItemsLoop items) = true := by
  induction items with
  | nil => rfl
  | cons item rest ih =>
    simp only [List.all_cons, Bool.and_eq_true] at h
    obtain ⟨h1, h2⟩ := h
    cases item with
    | obj kvs =>
      obtain ⟨v, hv⟩ := exOk_iff.mp (by
        exact exOk_iff.mpr (imgUrlChain_ok_of_wf h1))
      rw [imgItemsLoop_cons_obj, hv]
      cases htv : truthy v
      · simpa [htv] using ih h2
      · simp [htv, exOk]
    | null => simp at h1
    | bool b => simp at h1
    | num n => simp at h1
    | str s => simp at h1
    | arr l => simp at h1

theorem imgJobsLoop_exOk {js : List Json}
    (h : js.all wfJobImg = true) : exOk (imgJobsLoop js) = true := by
  induction js with
  | nil => rfl
  | cons j rest ih =>
    simp only [List.all_cons, Bool.and_eq_true] at h
    obtain ⟨h1, h2⟩ := h
    have ihr := ih h2
    cases j with
    | obj jk =>
      simp only [wfJobImg] at h1
      rw [imgJobsLoop_cons_obj]
      cases hres : jGet jk "results" with
      | obj rk =>
        rw [hres] at h1
        simp only [wfResImg] at h1
        cases htr : truthy (Json.obj rk)
        · simpa using ihr
        · simpa using exOk_iff.mpr (imgUrlChain_ok_of_wf h1)
      | arr items =>
        rw [hres] at h1
        simp only [wfResImg] at h1
        have hil := imgItemsLoop_exOk h1
        obtain ⟨ri, hri⟩ := exOk_iff.mp hil
        cases htr : truthy (Json.arr items)
        · simpa using ihr
        · cases ri with
          | some u => simp [hri, exOk]
          | none => simpa [hri] using ihr
      | null => simpa using ihr
      | bool b => cases b <;> simpa [truthy] using ihr
      | num n =>
        cases htr : truthy (Json.num n) <;> simpa [htr] using ihr
      | str s =>
        cases htr : truthy (Json.str s) <;> simpa [htr] using ihr
    | null => simp [wfJobImg] at h1
    | bool b => simp [wfJobImg] at h1
    | num n => simp [wfJobImg] at h1
    | str s => simp [wfJobImg] at h1
    | arr l => simp [wfJobImg] at h1

theorem itvJobsLoop_cons_obj (jk : List (String × Json)) (rest : List Json) :
    itvJobsLoop (.obj jk :: rest) =
      match truthy (jGet jk "results"), jGet jk "results" with
      | false, _ => itvJobsLoop rest
      | true, .obj rk =>
        match fromObjDict rk with
        | some u => .ok (some u)
        | none => itvJobsLoop rest
      | true, .arr items =>
        match itvItemsLoop items with
        | some u => .ok (some u)
        | none => itvJobsLoop rest
      | true, _ => itvJobsLoop rest := rfl

theorem itvJobsLoop_exOk {js : List Json}
    (h : js.all isObj = true) : exOk (itvJobsLoop js) = true := by
  induction js with
  | nil => rfl
  | cons j rest ih =>
    simp only [List.all_cons, Bool.and_eq_true] at h
    obtain ⟨h1, h2⟩ := h
    have ihr := ih h2
    cases j with
    | obj jk =>
      rw [itvJobsLoop_cons_obj]
      cases hres : jGet jk "results" with
      | obj rk =>
        cases htr : truthy (Json.obj rk)
        · simpa using ihr
        · cases hfo : fromObjDict rk
          · simp only [hfo]; exact ihr
          · simp [hfo, exOk]
      | arr items =>
        cases htr : truthy (Json.arr items)
        · simpa using ihr
        · cases hit : itvItemsLoop items
          · simp only [hit]; exact ihr
          · simp [hit, exOk]
      | null => simpa using ihr
      | bool b => cases b <;> simpa [truthy] using ihr
      | num n => cases htr : truthy (Json.num n) <;> simpa [htr] using ihr
      | str s => cases htr : truthy (Json.str s) <;> simpa [htr] using ihr
    | null => simp [isObj] at h1
    | bool b => simp [isObj] at h1
    | num n => simp [isObj] at h1
    | str s => simp [isObj] at h1
    | arr l => simp [isObj] at h1

theorem pick_video_url_itv_exOk {data : Json}
    (h : wfDataItv data = true) : exOk (pick_video_url_itv data) = true := by
  cases data with
  | obj kvs =>
    simp only [wfDataItv] at h
    have hjobs : exOk (itvJobs kvs) = true := by
      unfold itvJobs
      cases hjv : jGetD kvs "jobs" (.arr []) with
      | arr js =>
        rw [hjv] at h
        simpa [hjv, pyIter] using itvJobsLoop_exOk h
      | null => rw [hjv] at h; simp at h
      | bool b => rw [hjv] at h; simp at h
      | num n => rw [hjv] at h; simp at h
      | str s => rw [hjv] at h; simp at h
      | obj o => rw [hjv] at h; simp at h
    unfold pick_video_url_itv
    cases hres : jGet kvs "results" with
    | obj rk =>
      cases hfo : fromObjDict rk
      · simp only [hres, hfo]; exact hjobs
      · simp [hres, hfo, exOk]
    | arr items =>
      cases hit : itvItemsLoop items
      · simp only [hres, hit]; exact hjobs
      · simp [hres, hit, exOk]
    | null => simpa [hres] using hjobs
    | bool b => simpa [hres] using hjobs
    | num n => simpa [hres] using hjobs
    | str s => simpa [hres] using hjobs
  | null => simp [wfDataItv] at h
  | bool b => simp [wfDataItv] at h
  | num n => simp [wfDataItv] at h
  | str s => simp [wfDataItv] at h
  | arr l => simp [wfDataItv] at h

theorem from_results_exOk {kvs : List (String × Json)}
    (h : wfResObjT2v kvs = true) : exOk (from_results kvs) = true := by
  simp only [wfResObjT2v, Bool.and_eq_true] at h
  obtain ⟨⟨hv, hr⟩, hm⟩ := h
  obtain ⟨a, ha⟩ := orGetUrl_ok_of_okVal hv
  obtain ⟨b, hb⟩ := orGetUrl_ok_of_okVal hr
  obtain ⟨c, hc⟩ := orGetUrl_ok_of_okVal hm
  unfold from_results
  rw [ha, hb, hc]
  cases hcs : candScan [a, jGet kvs "video_url", b, c, jGet kvs "url"] <;>
    simp [hcs, exOk]

theorem t2vItemsLoop_cons_obj (kvs : List (String × Json)) (rest : List Json) :
    t2vItemsLoop (.obj kvs :: rest) =
      match from_results kvs with
      | .error e => .error e
      | .ok (some u) => .ok (some u)
      | .ok none => t2vItemsLoop rest := rfl

theorem t2vItemsLoop_exOk {items : List Json}
    (h : (items.all fun it =>
      match it with
      | Json.obj k => wfResObjT2v k
      | _ => true) = true) : exOk (t2vItemsLoop items) = true := by
  induction items with
  | nil => rfl
  | cons item rest ih =>
    simp only [List.all_cons, Bool.and_eq_true] at h
    obtain ⟨h1, h2⟩ := h
    have ihr := ih h2
    cases item with
    | obj kvs =>
      obtain ⟨v, hv⟩ := exOk_iff.mp (from_results_exOk h1)
      rw [t2vItemsLoop_cons_obj, hv]
      cases v
      · exact ihr
      · simp [exOk]
    | null => simpa using ihr
    | bool b => simpa using ihr
    | num n => simpa using ihr
    | str s => simpa using ihr
    | arr l => simpa using ihr

theorem t2vJobsLoop_cons_obj (jk : List (String × Json)) (rest : List Json) :
    t2vJobsLoop (.obj jk :: rest) =
      match truthy (jGet jk "results"), jGet jk "results" with
      | false, _ => t2vJobsLoop rest
      | true, .obj rk =>
        match from_results rk with
        | .error e => .error e
        | .ok (some u) => .ok (some u)
        | .ok none => t2vJobsLoop rest
      | true, .arr items =>
        match t2vItemsLoop items with
        | .error e => .error e
        | .ok (some u) => .ok (some u)
        | .ok none => t2vJobsLoop rest
      | true, _ => t2vJobsLoop rest := rfl

theorem t2vJobsLoop_exOk {js : List Json}
    (h : js.all wfJobT2v = true) : exOk (t2vJobsLoop js) = true := by
  induction js with
  | nil => rfl
  | cons j rest ih =>
    simp only [List.all_cons, Bool.and_eq_true] at h
    obtain ⟨h1, h2⟩ := h
    have ihr := ih h2
    cases j with
    | obj jk =>
      simp only [wfJobT2v] at h1
      rw [t2vJobsLoop_cons_obj]
      cases hres : jGet jk "results" with
      | obj rk =>
        rw [hres] at h1
        simp only [wfResT2v] at h1
        obtain ⟨v, hv⟩ := exOk_iff.mp (from_results_exOk h1)
        cases htr : truthy (Json.obj rk)
        · simpa using ihr
        · cases v
          · simp only [hv]; exact ihr
          · simp [hv, exOk]
      | arr items =>
        rw [hres] at h1
        simp only [wfResT2v] at h1
        obtain ⟨v, hv⟩ := exOk_iff.mp (t2vItemsLoop_exOk h1)
        cases htr : truthy (Json.arr items)
        · simpa using ihr
        · cases v
          · simp only [hv]; exact ihr
          · simp [hv, exOk]
      | null => simpa using ihr
      | bool b => cases b <;> simpa [truthy] using ihr
      | num n => cases htr : truthy (Json.num n) <;> simpa [htr] using ihr
      | str s => cases htr : truthy (Json.str s) <;> simpa [htr] using ihr
    | null => simp [wfJobT2v] at h1
    | bool b => simp [wfJobT2v] at h1
    | num n => simp [wfJobT2v] at h1
    | str s => simp [wfJobT2v] at h1
    | arr l => simp [wfJobT2v] at h1

theorem pick_image_url_exOk {data : Json}
    (h : wfDataImg data = true) : exOk (pick_image_url data) = true := by
  cases data with
  | obj kvs =>
    simp only [wfDataImg] at h
    unfold pick_image_url
    cases hjv : jGetD kvs "jobs" (.arr []) with
    | arr js =>
      rw [hjv] at h
      simpa [pyGetD, hjv, pyIter] using imgJobsLoop_exOk h
    | null => rw [hjv] at h; simp at h
    | bool b => rw [hjv] at h; simp at h
    | num n => rw [hjv] at h; simp at h
    | str s => rw [hjv] at h; simp at h
    | obj o => rw [hjv] at h; simp at h
  | null => simp [wfDataImg] at h
  | bool b => simp [wfDataImg] at h
  | num n => simp [wfDataImg] at h
  | str s => simp [wfDataImg] at h
  | arr l => simp [wfDataImg] at h

theorem pick_video_url_t2v_exOk {data : Json}
    (h : wfDataT2v data = true) : exOk (pick_video_url_t2v data) = true := by
  cases data with
  | obj kvs =>
    simp only [wfDataT2v] at h
    unfold pick_video_url_t2v
    cases hjv : jGetD kvs "jobs" (.arr []) with
    | arr js =>
      rw [hjv] at h
      simpa [pyGetD, hjv, pyIter] using t2vJobsLoop_exOk h
    | null => rw [hjv] at h; simp at h
    | bool b => rw [hjv] at h; simp at h
    | num n => rw [hjv] at h; simp at h
    | str s => rw [hjv] at h; simp at h
    | obj o => rw [hjv] at h; simp at h
  | null => simp [wfDataT2v] at h
  | bool b => simp [wfDataT2v] at h
  | num n => simp [wfDataT2v] at h
  | str s => simp [wfDataT2v] at h
  | arr l => simp [wfDataT2v] at h

theorem directHit_http {kvs : List (String × Json)} {k u : String}
    (h : directHit kvs k = some u) : strStartsWith u "http" = true := by
  unfold directHit at h
  cases hj : jGet kvs k
  case str v =>
    simp only [hj] at h
    split at h
    next hs => exact Option.some.inj h ▸ hs
    next => exact absurd h (by simp)
  case obj inner =>
    simp only [hj] at h
    cases hu : jGet inner "url"
    case str w =>
      simp only [hu] at h
      split at h
      next hs => exact Option.some.inj h ▸ hs
      next => exact absurd h (by simp)
    all_goals (simp only [hu] at h; exact absurd h (by simp))
  all_goals (simp only [hj] at h; exact absurd h (by simp))

theorem nestedHit_http {kvs : List (String × Json)} {k u : String}
    (h : nestedHit kvs k = some u) : strStartsWith u "http" = true := by
  unfold nestedHit at h
  cases hj : jGet kvs k
  case obj inner =>
    simp only [hj] at h
    cases hu : jGet inner "url"
    case str w =>
      simp only [hu] at h
      split at h
      next hs => exact Option.some.inj h ▸ hs
      next => exact absurd h (by simp)
    all_goals (simp only [hu] at h; exact absurd h (by simp))
  all_goals (simp only [hj] at h; exact absurd h (by simp))

theorem findSome?_forall {α β : Type} {f : α → Option β} {P : β → Prop}
    (hf : ∀ a u, f a = some u → P u) :
    ∀ (l : List α) (u : β), l.findSome? f = some u → P u := by
  intro l
  induction l with
  | nil => intro u h; simp [List.findSome?] at h
  | cons a rest ih =>
    intro u h
    unfold List.findSome? at h
    cases hfa : f a with
    | some b => rw [hfa] at h; exact Option.some.inj h ▸ hf a b hfa
    | none => rw [hfa] at h; exact ih u h

theorem fromObjDict_http {kvs : List (String × Json)} {u : String}
    (h : fromObjDict kvs = some u) : strStartsWith u "http" = true := by
  unfold fromObjDict at h
  cases hd : ["url", "mp4", "video"].findSome? (directHit kvs) with
  | some v =>
    rw [hd] at h
    exact Option.some.inj h ▸
      findSome?_forall (fun a w hw => directHit_http hw) _ v hd
  | none =>
    rw [hd] at h
    exact findSome?_forall (fun a w hw => nestedHit_http hw) _ u h

theorem candScan_http {l : List Json} {u : String}
    (h : candScan l = some u) : strStartsWith u "http" = true := by
  induction l with
  | nil => simp [candScan] at h
  | cons c rest ih =>
    cases c
    case str v =>
      have hstep : candScan (Json.str v :: rest) =
          if strStartsWith v "http" && hasVideoExt v then some v
          else candScan rest := rfl
      rw [hstep] at h
      split at h
      next hs =>
        simp only [Bool.and_eq_true] at hs
        exact Option.some.inj h ▸ hs.1
      next => exact ih h
    all_goals exact ih h

theorem valuesScan_http {kvs : List (String × Json)} {u : String}
    (h : valuesScan kvs = some u) : strStartsWith u "http" = true := by
  induction kvs with
  | nil => simp [valuesScan] at h
  | cons kv rest ih =>
    obtain ⟨k, v⟩ := kv
    cases v
    case str w =>
      have hstep : valuesScan ((k, Json.str w) :: rest) =
          if strStartsWith w "http" then some w else valuesScan rest := rfl
      rw [hstep] at h
      split at h
      next hs => exact Option.some.inj h ▸ hs
      next => exact ih h
    all_goals exact ih h

theorem from_results_http {kvs : List (String × Json)} {u : String}
    (h : from_results kvs = .ok (some u)) : strStartsWith u "http" = true := by
  unfold from_results at h
  cases h1 : orGetUrl kvs "video" <;> simp only [h1] at h
  case error => exact absurd h (by simp)
  case ok c1 =>
    cases h2 : orGetUrl kvs "raw" <;> simp only [h2] at h
    case error => exact absurd h (by simp)
    case ok c3 =>
      cases h3 : orGetUrl kvs "min" <;> simp only [h3] at h
      case error => exact absurd h (by simp)
      case ok c4 =>
        cases hcs : candScan [c1, jGet kvs "video_url", c3, c4, jGet kvs "url"] <;>
          simp only [hcs] at h
        case some w =>
          obtain rfl : w = u := by simpa using h
          exact candScan_http hcs
        case none =>
          have hv : valuesScan kvs = some u := by simpa using h
          exact valuesScan_http hv

/-! ## Poll-loop lemmas -/

theorem failScan_eq_list {data : Json} {js : List Json}
    (h : jobsList data = some js) : failScan data = failScanList js := by
  cases data
  case obj kvs =>
    simp only [jobsList] at h
    cases hjv : jGetD kvs "jobs" (.arr [])
    case arr l =>
      simp only [hjv] at h
      obtain rfl : l = js := by simpa using h
      unfold failScan
      simp [pyGetD, hjv, pyIter]
    all_goals (simp only [hjv] at h; exact absurd h (by simp))
  all_goals simp [jobsList] at h

theorem failScanList_finds {js : List Json}
    (hobj : js.all isObj = true) (hfail : js.any jobFailed = true) :
    ∃ d, failScanList js = .ok (some d) := by
  induction js with
  | nil => simp at hfail
  | cons j rest ih =>
    simp only [List.all_cons, Bool.and_eq_true] at hobj
    cases j with
    | obj jk =>
      by_cases hs : statusFailed (jGet jk "status") = true
      · exact ⟨if truthy (jGet jk "error") then jGet jk "error"
               else .str "Generation failed", by simp [failScanList, hs]⟩
      · have hrest : rest.any jobFailed = true := by
          simp only [List.any_cons, Bool.or_eq_true] at hfail
          rcases hfail with hf | hf
          · exact absurd (by simpa [jobFailed] using hf) hs
          · exact hf
        obtain ⟨d, hd⟩ := ih hobj.2 hrest
        exact ⟨d, by simp [failScanList, hs, hd]⟩
    | null => simp [isObj] at hobj
    | bool b => simp [isObj] at hobj
    | num n => simp [isObj] at hobj
    | str s => simp [isObj] at hobj
    | arr l => simp [isObj] at hobj

theorem poll_loop_pending (pick : Json → Except PyErr Json) (snaps : Nat → Json) :
    ∀ n i : Nat,
      (∀ k, k < n → pendingPick pick (snaps (i + k)) = true ∧
        failScan (snaps (i + k)) = .ok none) →
      poll_loop pick snaps n i = ⟨.notReady, n, n⟩ := by
  intro n
  induction n with
  | zero => intro i _; rfl
  | succ m ih =>
    intro i h
    obtain ⟨hp, hf⟩ := h 0 (Nat.succ_pos m)
    rw [Nat.add_zero] at hp hf
    have hrec := ih (i + 1) fun k hk => by
      have := h (k + 1) (Nat.succ_lt_succ hk)
      rwa [show i + (k + 1) = i + 1 + k by omega] at this
    unfold poll_loop
    cases hpick : pick (snaps i) with
    | error e => simp [pendingPick, hpick] at hp
    | ok u =>
      have hu : truthy u = false := by
        simpa [pendingPick, hpick] using hp
      simp [hu, hf, hrec]

theorem attemptsOf_eq_floor (t : ℤ) (iv : ℚ) :
    attemptsOf t iv = max 1 ⌊(t : ℚ) / iv⌋ := by
  unfold attemptsOf pyTrunc
  split
  · rfl
  next hq =>
    push_neg at hq
    have h1 : ⌊(t : ℚ) / iv⌋ ≤ 0 := by
      calc ⌊(t : ℚ) / iv⌋ ≤ ⌊(0 : ℚ)⌋ := Int.floor_le_floor (le_of_lt hq)
        _ = 0 := Int.floor_zero
    have h2 : (0 : ℤ) ≤ ⌊-((t : ℚ) / iv)⌋ := by
      calc (0 : ℤ) = ⌊(0 : ℚ)⌋ := Int.floor_zero.symm
        _ ≤ ⌊-((t : ℚ) / iv)⌋ := Int.floor_le_floor (by linarith)
    omega

/-! ## Claims -/

/-- C1: in every poll iteration of the poll-resolve engine, if the
fetched snapshot contains a job whose status is `failed` or `error` and
extraction returns no URL from that snapshot, the loop raises the 502
upstream-failure error on that iteration, performing no further status
fetch and no further sleep. -/
theorem poll_aborts_on_failure (pick : Json → Except PyErr Json)
    (snaps : Nat → Json) (n i : Nat) (js : List Json) (u : Json)
    (hjobs : jobsList (snaps i) = some js)
    (hobj : js.all isObj = true)
    (hfail : js.any jobFailed = true)
    (hpick : pick (snaps i) = .ok u)
    (hu : truthy u = false) :
    ∃ d, poll_loop pick snaps (n + 1) i = ⟨.upstreamFail d, 1, 0⟩ := by
  obtain ⟨d, hd⟩ := failScanList_finds hobj hfail
  refine ⟨d, ?_⟩
  unfold poll_loop
  simp only [hpick, hu, Bool.false_eq_true, if_false]
  rw [failScan_eq_list hjobs, hd]

/-- Witness for C1: a failed snapshot aborts the image poll loop after
one fetch and zero sleeps even with three attempts remaining. -/
theorem poll_aborts_on_failure_witness :
    ∃ d, poll_loop pick_image_url (fun _ => failSnap) 4 0 =
      ⟨.upstreamFail d, 1, 0⟩ :=
  poll_aborts_on_failure pick_image_url (fun _ => failSnap) 3 0
    [.obj [("status", .str "failed"), ("error", .str "boom")]] .null
    rfl rfl rfl rfl rfl

/-- C2: with a positive interval, the poll loop performs exactly
`max(1, floor(timeout / interval))` status fetches before returning "not
yet ready" when every fetched snapshot yields neither a URL nor a
failure tag. -/
theorem poll_attempt_budget (pick : Json → Except PyErr Json)
    (snaps : Nat → Json) (t : ℤ) (iv : ℚ) (hiv : 0 < iv)
    (hpend : ∀ k, k < (attemptsOf t iv).toNat →
      pendingPick pick (snaps k) = true ∧ failScan (snaps k) = .ok none) :
    poll_loop pick snaps (attemptsOf t iv).toNat 0 =
      ⟨.notReady, (max 1 ⌊(t : ℚ) / iv⌋).toNat,
        (max 1 ⌊(t : ℚ) / iv⌋).toNat⟩ := by
  have hrun := poll_loop_pending pick snaps (attemptsOf t iv).toNat 0
    (fun k hk => by simpa using hpend k hk)
  rw [hrun, attemptsOf_eq_floor]

/-- Witness for C2: timeout 10 and interval 2 yield exactly 5 fetches on
all-pending snapshots. -/
theorem poll_attempt_budget_witness :
    ((0 : ℚ) < 2 ∧
      poll_loop pick_image_url (fun _ => pendSnap) (attemptsOf 10 2).toNat 0 =
        ⟨.notReady, (max 1 ⌊(10 : ℚ) / 2⌋).toNat,
          (max 1 ⌊(10 : ℚ) / 2⌋).toNat⟩) ∧
    (max 1 ⌊(10 : ℚ) / 2⌋).toNat = 5 :=
  ⟨⟨by norm_num,
    poll_attempt_budget pick_image_url (fun _ => pendSnap) 10 2 (by norm_num)
      (fun k _ => ⟨rfl, rfl⟩)⟩,
   by
    have h5 : ⌊(10 : ℚ) / 2⌋ = 5 := by norm_num
    rw [h5]; rfl⟩

/-- C9: extraction runs before the failure scan in every poll iteration,
so a snapshot containing both an extractable URL and a failed job yields
the URL as a success rather than the 502 upstream-failure error. -/
theorem poll_url_before_failscan (pick : Json → Except PyErr Json)
    (snaps : Nat → Json) (n i : Nat) (js : List Json) (u : Json)
    (hjobs : jobsList (snaps i) = some js)
    (hfail : js.any jobFailed = true)
    (hpick : pick (snaps i) = .ok u)
    (hu : truthy u = true) :
    poll_loop pick snaps (n + 1) i = ⟨.ready u, 1, 0⟩ := by
  unfold poll_loop
  simp [hpick, hu]

/-- Witness for C9: a snapshot with both a raw URL and a failed status
makes the image poll loop return the URL. -/
theorem poll_url_before_failscan_witness :
    poll_loop pick_image_url (fun _ => bothSnap) 4 0 =
      ⟨.ready (.str "https://a/img.png"), 1, 0⟩ :=
  poll_url_before_failscan pick_image_url (fun _ => bothSnap) 3 0
    [.obj [("status", .str "failed"),
      ("results", .obj [("raw", .obj [("url", .str "https://a/img.png")])])]]
    (.str "https://a/img.png") rfl rfl rfl rfl

/-- C10: in `_pick_image_url`, the first job whose `results` field is a
non-empty dict decides the outcome unconditionally: the or-chain value
computed from that dict (possibly `None`) is the result of the whole
extraction, independent of the remaining jobs. -/
theorem first_dict_results_decides (kvs jk rk : List (String × Json))
    (rest : List Json)
    (hjobs : jGetD kvs "jobs" (.arr []) = .arr (.obj jk :: rest))
    (hres : jGet jk "results" = .obj rk)
    (hne : rk ≠ []) :
    pick_image_url (.obj kvs) = imgUrlChain rk := by
  have ht : truthy (Json.obj rk) = true := by
    cases rk with
    | nil => exact absurd rfl hne
    | cons a l => rfl
  unfold pick_image_url
  simp only [pyGetD, hjobs, pyIter]
  rw [imgJobsLoop_cons_obj]
  simp [hres, ht]

/-- Witness for C10: the first job's url-free results dict makes
extraction return `None` although the second job carries a URL. -/
theorem first_dict_results_decides_witness :
    pick_image_url (.obj [("jobs", .arr
      [.obj [("results", .obj [("note", .str "processing")])],
       .obj [("results", .obj [("raw",
         .obj [("url", .str "https://a/late.png")])])]])]) =
      imgUrlChain [("note", .str "processing")] ∧
    imgUrlChain [("note", .str "processing")] = .ok .null ∧
    pick_image_url (.obj [("jobs", .arr [.obj [("results", .obj [("raw",
      .obj [("url", .str "https://a/late.png")])])]])]) =
      .ok (.str "https://a/late.png") :=
  ⟨first_dict_results_decides _ _ _ _ rfl rfl (by simp), rfl, rfl⟩

/-- C3 counterexample: in `from_obj` a flat `url` field wins over a
nested `raw` URL, so the claimed raw-first priority order fails. -/
theorem from_obj_flat_over_raw_cex :
    from_obj (.obj [("raw", .obj [("url", .str "https://a/raw.png")]),
      ("url", .str "https://a/flat.png")]) = .ok (some "https://a/flat.png") ∧
    "https://a/flat.png" ≠ "https://a/raw.png" :=
  ⟨rfl, by decide⟩

/-- C3 amended: `from_obj` searches the flat `url`/`mp4`/`video` keys
first — any http string under the flat `url` key is returned regardless
of nested entries — and only then the nested `raw`/`min`/`high`/`low`
variants; among the nested variants `raw` is still preferred over `min`,
so the spec's raw-versus-min example holds. -/
theorem from_obj_search_order (kvs : List (String × Json)) (u : String)
    (hurl : jGet kvs "url" = .str u)
    (hhttp : strStartsWith u "http" = true) :
    from_obj (.obj kvs) = .ok (some u) ∧
    fromObjDict [("raw", .obj [("url", .str "https://a/raw.png")]),
      ("min", .obj [("url", .str "https://a/min.png")])] =
      some "https://a/raw.png" := by
  constructor
  · have hd : directHit kvs "url" = some u := by
      unfold directHit
      simp [hurl, hhttp]
    have hfs : ["url", "mp4", "video"].findSome? (directHit kvs) = some u := by
      unfold List.findSome?
      simp only [hd]
    simp [from_obj, fromObjDict, hfs]
  · rfl

/-- Witness for C3's amended claim. -/
theorem from_obj_search_order_witness :
    from_obj (.obj [("raw", .obj [("url", .str "https://a/raw.png")]),
      ("url", .str "https://a/flat.png")]) = .ok (some "https://a/flat.png") ∧
    fromObjDict [("raw", .obj [("url", .str "https://a/raw.png")]),
      ("min", .obj [("url", .str "https://a/min.png")])] =
      some "https://a/raw.png" :=
  from_obj_search_order
    [("raw", .obj [("url", .str "https://a/raw.png")]),
     ("url", .str "https://a/flat.png")] "https://a/flat.png" rfl rfl

/-- C4 counterexample: the text-to-image submission path checks only the
top-level `id`, so `{"data":{"id":"abc"}}` triggers the 502
no-job-set-id error instead of yielding handle `abc`. -/
theorem t2i_nested_id_cex :
    submit_id_t2i (.obj [("data", .obj [("id", .str "abc")])]) =
      .ok .badGateway := rfl

/-- C4 amended: the two-path id check (top-level `id`, then nested
`data.id`) holds for the image-to-video and text-to-video routes, whose
extraction yields the nested id whenever the top-level one is absent;
the text-to-image routes check only the top-level `id` and return the
502 path on the same input. -/
theorem nested_id_extraction (kvs dk : List (String × Json))
    (hid : jGet kvs "id" = .null)
    (hdata : jGet kvs "data" = .obj dk)
    (hne : truthy (jGet dk "id") = true) :
    submit_id_nested (.obj kvs) = .ok (.handle (jGet dk "id")) ∧
    submit_id_t2i (.obj kvs) = .ok .badGateway := by
  have hdk : dk ≠ [] := by
    intro hnil
    rw [hnil] at hne
    simp [jGet, truthy] at hne
  have htd : truthy (Json.obj dk) = true := by
    cases dk with
    | nil => exact absurd rfl hdk
    | cons a l => rfl
  constructor
  · unfold submit_id_nested
    simp only [pyGet, hid]
    rw [if_neg (by decide : ¬(truthy Json.null = true))]
    simp only [pyGet, hdata]
    rw [if_pos htd]
    simp [hne]
  · unfold submit_id_t2i
    simp only [pyGet, hid]
    rw [if_neg (by decide : ¬(truthy Json.null = true))]

/-- Witness for C4's amended claim at `{"data":{"id":"abc"}}`. -/
theorem nested_id_extraction_witness :
    submit_id_nested (.obj [("data", .obj [("id", .str "abc")])]) =
      .ok (.handle (jGet [("id", .str "abc")] "id")) ∧
    submit_id_t2i (.obj [("data", .obj [("id", .str "abc")])]) =
      .ok .badGateway :=
  nested_id_extraction [("data", .obj [("id", .str "abc")])]
    [("id", .str "abc")] rfl rfl rfl

/-- C5 counterexample: the image-to-video `from_obj` has no
video-extension preference — the flat `url` key wins by key order even
when another key holds an `.mp4` URL. -/
theorem itv_no_ext_preference_cex :
    from_obj (.obj [("url", .str "https://a/x"),
      ("video", .str "https://a/y.mp4")]) = .ok (some "https://a/x") ∧
    "https://a/x" ≠ "https://a/y.mp4" :=
  ⟨rfl, by decide⟩

/-- C5 amended: both video extractors accept only strings beginning with
an http scheme, but only the text-to-video `from_results` prefers
candidates with a known video file extension (an `.mp4` URL in a later
candidate slot beats an extension-less URL in an earlier one); the
image-to-video `from_obj` returns the first http string in key order
regardless of extension. -/
theorem video_url_http_and_ext (kvs1 : List (String × Json)) (u1 : String)
    (kvs2 : List (String × Json)) (u2 : String)
    (h1 : fromObjDict kvs1 = some u1)
    (h2 : from_results kvs2 = .ok (some u2)) :
    strStartsWith u1 "http" = true ∧ strStartsWith u2 "http" = true ∧
    from_results [("video_url", .str "https://a/x"),
      ("url", .str "https://a/y.mp4")] = .ok (some "https://a/y.mp4") :=
  ⟨fromObjDict_http h1, from_results_http h2, rfl⟩

/-- Witness for C5's amended claim. -/
theorem video_url_http_and_ext_witness :
    strStartsWith "https://a/u.png" "http" = true ∧
    strStartsWith "https://a/v.mp4" "http" = true ∧
    from_results [("video_url", .str "https://a/x"),
      ("url", .str "https://a/y.mp4")] = .ok (some "https://a/y.mp4") :=
  video_url_http_and_ext [("url", .str "https://a/u.png")] "https://a/u.png"
    [("url", .str "https://a/v.mp4")] "https://a/v.mp4" rfl rfl

/-- C6 counterexample: the text-to-image extractor never reads the
top-level `results` field — with both present it returns the per-job
URL, not the top-level one. -/
theorem t2i_ignores_top_results_cex :
    pick_image_url (.obj [("results",
      .obj [("raw", .obj [("url", .str "https://a/top.png")])]),
      ("jobs", .arr [.obj [("results",
        .obj [("raw", .obj [("url", .str "https://a/job.png")])])]])]) =
      .ok (.str "https://a/job.png") ∧
    "https://a/job.png" ≠ "https://a/top.png" :=
  ⟨rfl, by decide⟩

/-- C6 amended: only the image-to-video extractor prefers a top-level
`results` field (any extractable top-level dict decides its result
before per-job results are read); the text-to-image and text-to-video
extractors depend only on the `jobs` entry of the snapshot and ignore a
top-level `results` field entirely. -/
theorem top_results_preference (kvs rk : List (String × Json)) (u : String)
    (kvs1 kvs2 : List (String × Json))
    (htop : jGet kvs "results" = .obj rk)
    (hu : fromObjDict rk = some u)
    (hjobs : jGetD kvs1 "jobs" (.arr []) = jGetD kvs2 "jobs" (.arr [])) :
    pick_video_url_itv (.obj kvs) = .ok (some u) ∧
    pick_image_url (.obj kvs1) = pick_image_url (.obj kvs2) ∧
    pick_video_url_t2v (.obj kvs1) = pick_video_url_t2v (.obj kvs2) := by
  refine ⟨?_, ?_, ?_⟩
  · unfold pick_video_url_itv
    simp [htop, hu]
  · unfold pick_image_url
    simp [pyGetD, hjobs]
  · unfold pick_video_url_t2v
    simp [pyGetD, hjobs]

/-- Witness for C6's amended claim: the image-to-video extractor takes
the top-level URL; dropping a top-level `results` entry leaves the other
two extractors' results unchanged. -/
theorem top_results_preference_witness :
    pick_video_url_itv (.obj [("results",
      .obj [("raw", .obj [("url", .str "https://a/top.mp4")])]),
      ("jobs", .arr [])]) = .ok (some "https://a/top.mp4") ∧
    pick_image_url (.obj [("results", .str "ignored"), ("jobs", .arr [])]) =
      pick_image_url (.obj [("jobs", .arr [])]) ∧
    pick_video_url_t2v (.obj [("results", .str "ignored"), ("jobs", .arr [])]) =
      pick_video_url_t2v (.obj [("jobs", .arr [])]) :=
  top_results_preference
    [("results", .obj [("raw", .obj [("url", .str "https://a/top.mp4")])]),
     ("jobs", .arr [])]
    [("raw", .obj [("url", .str "https://a/top.mp4")])] "https://a/top.mp4"
    [("results", .str "ignored"), ("jobs", .arr [])] [("jobs", .arr [])]
    rfl rfl rfl

/-- C7 counterexample: extraction is not exception-free on arbitrary
nesting — a string where a dict is expected under `results.raw` makes
`_pick_image_url` raise AttributeError. -/
theorem extraction_raises_cex :
    pick_image_url (.obj [("jobs", .arr [.obj [("results",
      .obj [("raw", .str "oops")])]])]) = .error .attributeError := rfl

/-- C7 amended: extraction never raises on missing keys — all dict
lookups are optional — and returns normally on every well-shaped
snapshot (job entries are dicts and every value the code may call `.get`
on is a dict or falsy); it can raise on unexpected value shapes such as
a truthy non-dict in a dict position. -/
theorem extraction_total_on_wellshaped (d1 d2 d3 : Json)
    (h1 : wfDataImg d1 = true) (h2 : wfDataItv d2 = true)
    (h3 : wfDataT2v d3 = true) :
    (∃ r, pick_image_url d1 = .ok r) ∧
    (∃ r, pick_video_url_itv d2 = .ok r) ∧
    (∃ r, pick_video_url_t2v d3 = .ok r) :=
  ⟨exOk_iff.mp (pick_image_url_exOk h1),
   exOk_iff.mp (pick_video_url_itv_exOk h2),
   exOk_iff.mp (pick_video_url_t2v_exOk h3)⟩

/-- Witness for C7's amended claim on a well-shaped snapshot. -/
theorem extraction_total_on_wellshaped_witness :
    (∃ r, pick_image_url wfEx = .ok r) ∧
    (∃ r, pick_video_url_itv wfEx = .ok r) ∧
    (∃ r, pick_video_url_t2v wfEx = .ok r) :=
  extraction_total_on_wellshaped wfEx wfEx wfEx rfl rfl rfl

/-- C8 counterexample: the image byte-streaming route passes a
non-image upstream content-type through verbatim instead of falling back
to the media-kind default. -/
theorem image_content_type_cex :
    (buildImageBytesResponse [] (some "text/html")).mediaType = "text/html" ∧
    strStartsWith "text/html" "image/" = false ∧
    "text/html" ≠ "image/jpeg" :=
  ⟨rfl, by decide, by decide⟩

/-- C8 amended: byte-streaming re-emits the full fetched body with fixed
cache-control and inline content-disposition headers; the video routes
default to `video/mp4` when the upstream content-type is missing, empty,
or not `video/*`, and use it verbatim when it is `video/*`; the image
route defaults to `image/jpeg` only when the header is missing and
passes any present content-type through unchanged. -/
theorem bytes_response_shape (content : List Nat) (ct : Option String)
    (s t : String) (hs : strStartsWith s "video/" = true)
    (ht : strStartsWith t "video/" = false) :
    (buildImageBytesResponse content ct).body = content ∧
    (buildVideoBytesResponse content ct).body = content ∧
    (buildImageBytesResponse content ct).cacheControl =
      "public, max-age=31536000" ∧
    (buildVideoBytesResponse content ct).cacheControl =
      "public, max-age=31536000" ∧
    (buildImageBytesResponse content ct).contentDisposition =
      "inline; filename=\"generated-image\"" ∧
    (buildVideoBytesResponse content ct).contentDisposition =
      "inline; filename=\"generated-video\"" ∧
    imageMediaType none = "image/jpeg" ∧
    (∀ r : String, imageMediaType (some r) = r) ∧
    videoMediaType none = "video/mp4" ∧
    videoMediaType (some s) = s ∧
    videoMediaType (some t) = "video/mp4" := by
  refine ⟨rfl, rfl, rfl, rfl, rfl, rfl, rfl, fun r => rfl, rfl, ?_, ?_⟩
  · have hne : s ≠ "" := by
      intro hempty
      subst hempty
      exact absurd hs (by decide)
    unfold videoMediaType
    simp [hne, hs]
  · unfold videoMediaType
    by_cases hte : t = ""
    · subst hte
      rfl
    · simp [hte, ht]

/-- Witness for C8's amended claim. -/
theorem bytes_response_shape_witness :
    (buildImageBytesResponse [7] (some "image/png")).body = [7] ∧
    (buildVideoBytesResponse [7] (some "image/png")).body = [7] ∧
    (buildImageBytesResponse [7] (some "image/png")).cacheControl =
      "public, max-age=31536000" ∧
    (buildVideoBytesResponse [7] (some "image/png")).cacheControl =
      "public, max-age=31536000" ∧
    (buildImageBytesResponse [7] (some "image/png")).contentDisposition =
      "inline; filename=\"generated-image\"" ∧
    (buildVideoBytesResponse [7] (some "image/png")).contentDisposition =
      "inline; filename=\"generated-video\"" ∧
    imageMediaType none = "image/jpeg" ∧
    (∀ r : String, imageMediaType (some r) = r) ∧
    videoMediaType none = "video/mp4" ∧
    videoMediaType (some "video/webm") = "video/webm" ∧
    videoMediaType (some "text/html") = "video/mp4" :=
  bytes_response_shape [7] (some "image/png") "video/webm" "text/html"
    (by decide) (by decide)
